import Mathlib

/-!
Verification of the regular_dicers_bot core against its source
(`dicers_bot/bot.py` and `dicers_bot/chat.py`).  Python functions are
shallowly embedded as executable Lean definitions.  Calls against the
Telegram adapter and the timer runtime are modelled as explicit outcome
parameters (for calls whose result the code branches on) and as emitted
`Action`s (for fire-and-forget requests).  Machine integers are `Int` /
`Nat`; Python exceptions are `Except` errors.
-/

namespace DicersBot

/-- A Telegram message as the spam checker uses it: the platform's
monotonically increasing (positive, hence `Nat`) sequence id, the text,
and the date as unix seconds. -/
structure Msg where
  message_id : Nat
  text : String
  date : Int
deriving DecidableEq, Repr

/-- The spam thresholds read from the configuration
(bot.py lines 341-346), with the same defaults. -/
structure SpamConfig where
  consecutive_message_limit : Int := 8
  consecutive_message_timeframe : Int := 5
  same_message_limit : Int := 3
  same_message_timeframe : Int := 2
  different_message_limit : Int := 15
  different_message_timeframe : Int := 2
deriving DecidableEq, Repr

/-- bot.py lines 27-31. -/
inductive SpamType where
  | NONE
  | CONSECUTIVE
  | DIFFERENT
  | SAME
deriving DecidableEq, Repr

/-- Python `xs[-1]` on the non-empty list `a :: t`. -/
def lastElem (a : α) : List α → α
  | [] => a
  | b :: t => lastElem b t

/-- bot.py lines 21-24, `grouper`: collect data into fixed-length
chunks, the final chunk padded with `none` (Python pads with the
`fillvalue`, `None`).  For `n = 0` Python's `zip_longest` of no
iterators yields nothing. -/
def grouper (n : Nat) : List α → List (List (Option α))
  | [] => []
  | a :: l =>
    if h : n = 0 then []
    else
      (((a :: l).take n).map some ++ List.replicate (n - (a :: l).length) none)
        :: grouper n ((a :: l).drop n)
termination_by l => l.length
decreasing_by simp; omega

/-- bot.py lines 348-355, `is_consecutive` (local to `_check_user_spam`):
a window containing the pad marker `None` is rejected at once; otherwise
the sum of the window's message ids is compared against
`maximum*(maximum+1)/2 - (minimum-1)*(minimum/2)`.  The comparison is
modelled in exact rational arithmetic; Python evaluates it in `float`,
which is exact for all realistic message ids.  `none` is returned only
for the empty window, where Python raises IndexError (unreachable from
`grouper` output). -/
def is_consecutive (w : List (Option Msg)) : Option Bool :=
  if none ∈ w then some false
  else
    match w.filterMap id with
    | [] => none
    | first :: rest =>
      some (decide
        ((((first :: rest).map fun x => (x.message_id : ℚ)).sum) =
          ((lastElem first rest).message_id : ℚ) * (((lastElem first rest).message_id : ℚ) + 1) / 2 -
            ((first.message_id : ℚ) - 1) * ((first.message_id : ℚ) / 2)))

/-- bot.py lines 362-368: scan the fixed-size windows in order; a
consecutive window whose first-to-last time span is under
`consecutive_message_timeframe` minutes triggers CONSECUTIVE, otherwise
scanning continues with the next window.  The error cases model the
Python exceptions on an empty window (unreachable from `grouper`
output). -/
def consecutive_scan (cfg : SpamConfig) : List (List (Option Msg)) → Except String Bool
  | [] => .ok false
  | g :: gs =>
    match is_consecutive g with
    | none => .error "list index out of range"
    | some false => consecutive_scan cfg gs
    | some true =>
      match g.head?, g.getLast? with
      | some (some mf), some (some ml) =>
        if ml.date - mf.date < 60 * cfg.consecutive_message_timeframe then .ok true
        else consecutive_scan cfg gs
      | _, _ => .error "AttributeError"

/-- bot.py lines 370-377: `Counter` over the message texts; any text
occurring more than `same_message_limit` times whose first-to-last
occurrence span is under `same_message_timeframe` hours triggers SAME.
`Counter` iterates each distinct text once; `dedup` does the same (in a
different order, irrelevant to the existential outcome). -/
def same_message_scan (msgs : List Msg) (cfg : SpamConfig) : Bool :=
  ((msgs.map Msg.text).dedup).any fun t =>
    let occ := msgs.filter fun m => m.text == t
    decide ((occ.length : Int) > cfg.same_message_limit) &&
      match occ with
      | [] => false
      | o :: os => decide ((lastElem o os).date - o.date < 3600 * cfg.same_message_timeframe)

/-- bot.py lines 336-379, `_check_user_spam`: classify one user's
message list.  `first`/`last` (lines 357-358) are read before any
check, so the empty list raises IndexError, modelled as `.error`. -/
def check_user_spam (user_messages : List Msg) (spam_config : SpamConfig) :
    Except String SpamType :=
  match user_messages with
  | [] => .error "list index out of range"
  | m :: ms =>
    let first := m.date
    let last := (lastElem m ms).date
    if ((m :: ms).length : Int) > spam_config.different_message_limit ∧
        last - first < 3600 * spam_config.different_message_timeframe then
      .ok SpamType.DIFFERENT
    else
      match consecutive_scan spam_config
          (grouper spam_config.consecutive_message_limit.toNat (m :: ms)) with
      | .error e => .error e
      | .ok true => .ok SpamType.CONSECUTIVE
      | .ok false =>
        if same_message_scan (m :: ms) spam_config then .ok SpamType.SAME
        else .ok SpamType.NONE

end DicersBot

namespace DicersBot

/-- C2 counterexample: with the default thresholds, the classifier does
not return NONE on the empty message list (it fails instead). -/
theorem check_user_spam_empty_not_none :
    check_user_spam [] {} ≠ Except.ok SpamType.NONE := by
  intro h
  simp [check_user_spam] at h

/-- C2 (amended): for every configuration, the classifier fails with an
index error on the empty message list (bot.py line 357 reads
`user_messages[0]` unconditionally); it never returns NONE there. -/
theorem check_user_spam_empty_fails (cfg : SpamConfig) :
    check_user_spam [] cfg = Except.error "list index out of range" := rfl

lemma lastElem_cons (a b : α) (t : List α) : lastElem a (b :: t) = lastElem b t := rfl

lemma lastElem_map (f : α → β) (a : α) :
    ∀ t : List α, lastElem (f a) (t.map f) = f (lastElem a t)
  | [] => rfl
  | b :: t => lastElem_map f b t

lemma filterMap_id_map_some (l : List α) : (l.map some).filterMap id = l := by
  induction l with
  | nil => rfl
  | cons a t ih => simp [List.filterMap_cons, ih]

/-- Lower bound used for the gap analysis: for a strictly increasing id
list, twice the sum is at most the closed-formula value taken between
the first and the last id. -/
lemma chain_sum_le : ∀ (t : List Nat) (a : Nat), List.Chain' (· < ·) (a :: t) →
    2 * (((a :: t).sum : Int)) ≤
      ((lastElem a t : Nat) : Int) * (((lastElem a t : Nat) : Int) + 1) - ((a : Int) - 1) * (a : Int)
  | [], a, _ => by
    simp [lastElem]
    nlinarith [sq_nonneg ((a : Int))]
  | b :: t, a, h => by
    rw [List.chain'_cons] at h
    have hb := chain_sum_le t b h.2
    have hab : (a : Int) + 1 ≤ (b : Int) := by exact_mod_cast h.1
    have ha0 : (0 : Int) ≤ (a : Int) := Int.natCast_nonneg a
    have hmono : (a : Int) * ((a : Int) + 1) ≤ ((b : Int) - 1) * (b : Int) :=
      mul_le_mul (by linarith) (by linarith) (by linarith) (by linarith)
    have hsum : (((a :: b :: t).sum : Nat) : Int) = (a : Int) + (((b :: t).sum : Nat) : Int) := by
      push_cast [List.sum_cons]
      ring
    rw [lastElem_cons, hsum]
    linarith

/-- The heart of C5: for a strictly increasing id list, the sum-of-ids
test passes exactly when the ids form an unbroken run (each id is its
predecessor plus one). -/
lemma chain_sum_eq_iff : ∀ (t : List Nat) (a : Nat), List.Chain' (· < ·) (a :: t) →
    (2 * (((a :: t).sum : Int)) =
        ((lastElem a t : Nat) : Int) * (((lastElem a t : Nat) : Int) + 1) - ((a : Int) - 1) * (a : Int)
      ↔ List.Chain' (fun x y : Nat => y = x + 1) (a :: t))
  | [], a, _ => by
    simp [lastElem]
    ring
  | b :: t, a, h => by
    rw [List.chain'_cons] at h
    have hab : (a : Int) + 1 ≤ (b : Int) := by exact_mod_cast h.1
    have ha0 : (0 : Int) ≤ (a : Int) := Int.natCast_nonneg a
    have ih := chain_sum_eq_iff t b h.2
    have hbound := chain_sum_le t b h.2
    have hsum : (((a :: b :: t).sum : Nat) : Int) = (a : Int) + (((b :: t).sum : Nat) : Int) := by
      push_cast [List.sum_cons]
      ring
    rw [lastElem_cons, hsum, List.chain'_cons]
    constructor
    · intro heq
      have h2 : 2 * ((((b :: t).sum : Nat)) : Int) =
          ((lastElem b t : Nat) : Int) * (((lastElem b t : Nat) : Int) + 1) - (a : Int) * ((a : Int) + 1) := by
        linarith
      have hle : ((b : Int) - 1) * (b : Int) ≤ (a : Int) * ((a : Int) + 1) := by linarith
      have hble : (b : Int) ≤ (a : Int) + 1 := by nlinarith
      have hbn : b = a + 1 := by
        have : (b : Int) = (a : Int) + 1 := le_antisymm hble hab
        exact_mod_cast this
      subst hbn
      refine ⟨rfl, ih.mp ?_⟩
      push_cast at h2 ⊢
      linarith
    · rintro ⟨hba, hchain⟩
      subst hba
      have h2 := ih.mpr hchain
      push_cast at h2 ⊢
      linarith

/-- Bridge between the source's rational formula and the integer form
used in the run characterisation. -/
lemma qformula_iff_int (S m M : Nat) :
    ((S : ℚ) = (M : ℚ) * ((M : ℚ) + 1) / 2 - ((m : ℚ) - 1) * ((m : ℚ) / 2))
      ↔ 2 * (S : Int) = (M : Int) * ((M : Int) + 1) - ((m : Int) - 1) * (m : Int) := by
  constructor
  · intro h
    have h2 : 2 * (S : ℚ) = (M : ℚ) * ((M : ℚ) + 1) - ((m : ℚ) - 1) * (m : ℚ) := by
      field_simp at h
      linarith
    exact_mod_cast h2
  · intro h
    have h2 : 2 * (S : ℚ) = (M : ℚ) * ((M : ℚ) + 1) - ((m : ℚ) - 1) * (m : ℚ) := by
      exact_mod_cast h
    field_simp
    linarith

/-- Reduction of `is_consecutive` on an unpadded window. -/
lemma is_consecutive_map_some (m : Msg) (ms : List Msg) :
    is_consecutive ((m :: ms).map some) = some (decide
      ((((m :: ms).map fun x => (x.message_id : ℚ)).sum) =
        ((lastElem m ms).message_id : ℚ) * (((lastElem m ms).message_id : ℚ) + 1) / 2 -
          ((m.message_id : ℚ) - 1) * ((m.message_id : ℚ) / 2))) := by
  rw [is_consecutive, if_neg (by simp), filterMap_id_map_some]

/-- C5: a full (unpadded) window of `consecutive_message_limit` messages
with distinct, sorted sequence ids is deemed consecutive exactly when
the ids form an unbroken run from the window's minimum to its maximum;
and a window padded with the absent marker `none` (holding fewer than
`consecutive_message_limit` actual messages) is never deemed
consecutive. -/
theorem consecutive_window_characterisation :
    (∀ (cfg : SpamConfig) (m : Msg) (ms : List Msg),
      (m :: ms).length = cfg.consecutive_message_limit.toNat →
      List.Chain' (fun x y : Msg => x.message_id < y.message_id) (m :: ms) →
      (is_consecutive ((m :: ms).map some) = some true ↔
        List.Chain' (fun x y : Msg => y.message_id = x.message_id + 1) (m :: ms)))
    ∧ (∀ w : List (Option Msg), none ∈ w → is_consecutive w = some false) := by
  constructor
  · intro cfg m ms _hlen hchain
    rw [is_consecutive_map_some]
    have hchain2 : List.Chain' (· < ·) (m.message_id :: ms.map Msg.message_id) := by
      rw [← List.map_cons, List.chain'_map]
      exact hchain
    have key := chain_sum_eq_iff (ms.map Msg.message_id) m.message_id hchain2
    have hmaps : ((m :: ms).map fun x => (x.message_id : ℚ)) =
        ((m.message_id :: ms.map Msg.message_id).map fun n : Nat => (n : ℚ)) := by
      rw [← List.map_cons, List.map_map]
      rfl
    have hlast : (lastElem m ms).message_id =
        lastElem m.message_id (ms.map Msg.message_id) := (lastElem_map Msg.message_id m ms).symm
    simp only [Option.some_inj, decide_eq_true_eq]
    rw [hmaps, ← Nat.cast_list_sum, hlast, qformula_iff_int, key]
    rw [← List.map_cons, List.chain'_map]
  · intro w hw
    rw [is_consecutive, if_pos hw]

/-- C5 witness: a concrete full window with an unbroken id run is
consecutive, and a concrete padded window is not. -/
theorem consecutive_window_characterisation_witness :
    ((([⟨5, "a", 0⟩, ⟨6, "b", 10⟩] : List Msg).length =
        ({ consecutive_message_limit := 2 } : SpamConfig).consecutive_message_limit.toNat
      ∧ List.Chain' (fun x y : Msg => x.message_id < y.message_id)
          [⟨5, "a", 0⟩, ⟨6, "b", 10⟩]
      ∧ (is_consecutive (([⟨5, "a", 0⟩, ⟨6, "b", 10⟩] : List Msg).map some) = some true ↔
          List.Chain' (fun x y : Msg => y.message_id = x.message_id + 1)
            [⟨5, "a", 0⟩, ⟨6, "b", 10⟩]))
    ∧ (none ∈ ([some ⟨7, "c", 0⟩, none] : List (Option Msg))
      ∧ is_consecutive [some ⟨7, "c", 0⟩, none] = some false)) := by
  refine ⟨⟨by decide, by simp [List.chain'_cons],
    consecutive_window_characterisation.1 { consecutive_message_limit := 2 }
      ⟨5, "a", 0⟩ [⟨6, "b", 10⟩] (by decide) (by simp [List.chain'_cons])⟩,
    by decide,
    consecutive_window_characterisation.2 [some ⟨7, "c", 0⟩, none] (by decide)⟩

lemma grouper_groups_ne_nil (n : Nat) :
    ∀ (l : List α), ∀ g ∈ grouper n l, g ≠ []
  | [] => by
    intro g hg
    simp [grouper] at hg
  | a :: l => by
    intro g hg
    simp only [grouper] at hg
    split at hg
    · simp at hg
    · rcases List.mem_cons.mp hg with h | h
      · subst h
        rcases n with _ | k
        · simp_all
        · simp
      · exact grouper_groups_ne_nil n ((a :: l).drop n) g h
termination_by l => l.length
decreasing_by simp; omega

lemma is_consecutive_ne_none (w : List (Option Msg)) (hw : w ≠ []) :
    is_consecutive w ≠ none := by
  rw [is_consecutive]
  split
  · simp
  · rename_i hnn
    cases w with
    | nil => exact absurd rfl hw
    | cons a t =>
      cases a with
      | none => simp at hnn
      | some m => simp [List.filterMap_cons]

lemma is_consecutive_true_shape (w : List (Option Msg))
    (h : is_consecutive w = some true) :
    ∃ mf ml, w.head? = some (some mf) ∧ w.getLast? = some (some ml) := by
  rw [is_consecutive] at h
  split at h
  · simp at h
  · rename_i hnn
    cases w with
    | nil => simp at h
    | cons a t =>
      cases a with
      | none => simp at hnn
      | some m =>
        refine ⟨m, ?_⟩
        rcases hx : (some m :: t : List (Option Msg)).getLast? with _ | x
        · rw [List.getLast?_eq_none_iff] at hx
          exact absurd hx (by simp)
        · have hxmem : x ∈ (some m :: t : List (Option Msg)) :=
            List.mem_of_mem_getLast? (by rw [hx]; exact rfl)
          cases x with
          | none => exact absurd hxmem hnn
          | some ml => exact ⟨ml, rfl, rfl⟩

lemma consecutive_scan_total (cfg : SpamConfig) :
    ∀ gs : List (List (Option Msg)), (∀ g ∈ gs, g ≠ []) →
      ∃ b, consecutive_scan cfg gs = Except.ok b
  | [], _ => ⟨false, rfl⟩
  | g :: gs, hne => by
    have hg : g ≠ [] := hne g (List.mem_cons_self g gs)
    have htail : ∀ g2 ∈ gs, g2 ≠ [] := fun g2 h2 => hne g2 (List.mem_cons_of_mem g h2)
    have hrec := consecutive_scan_total cfg gs htail
    rcases hic : is_consecutive g with _ | b
    · exact absurd hic (is_consecutive_ne_none g hg)
    · cases b with
      | false => simpa [consecutive_scan, hic] using hrec
      | true =>
        obtain ⟨mf, ml, hh, hl⟩ := is_consecutive_true_shape g hic
        simp only [consecutive_scan, hic, hh, hl]
        split
        · exact ⟨true, rfl⟩
        · exact hrec

/-- C4 spec-side DIFFERENT condition, in the claim's words: the message
count exceeds `different_message_limit` and the span between first and
last message is under `different_message_timeframe` hours. -/
def spec_different_cond (m : Msg) (ms : List Msg) (cfg : SpamConfig) : Bool :=
  decide ((((m :: ms).length : Int) > cfg.different_message_limit ∧
    (lastElem m ms).date - m.date < 3600 * cfg.different_message_timeframe))

/-- C4 spec-side SAME condition, in the claim's words: some exact text's
occurrence count exceeds `same_message_limit` and the span between that
text's first and last occurrence is under `same_message_timeframe`
hours. -/
def spec_same_cond (msgs : List Msg) (cfg : SpamConfig) : Bool :=
  (msgs.map Msg.text).any fun t =>
    let occ := msgs.filter fun m => m.text == t
    decide ((occ.length : Int) > cfg.same_message_limit) &&
      match occ with
      | [] => false
      | o :: os => decide ((lastElem o os).date - o.date < 3600 * cfg.same_message_timeframe)

lemma any_dedup [DecidableEq α] (l : List α) (p : α → Bool) :
    l.dedup.any p = l.any p := by
  cases hl : l.any p
  · cases hd : l.dedup.any p
    · rfl
    · exfalso
      rw [List.any_eq_true] at hd
      obtain ⟨x, hx, hpx⟩ := hd
      have := List.any_eq_true.mpr ⟨x, List.mem_dedup.mp hx, hpx⟩
      rw [hl] at this
      exact Bool.false_ne_true this
  · rw [List.any_eq_true] at hl
    obtain ⟨x, hx, hpx⟩ := hl
    exact List.any_eq_true.mpr ⟨x, List.mem_dedup.mpr hx, hpx⟩

lemma same_scan_eq_spec (msgs : List Msg) (cfg : SpamConfig) :
    same_message_scan msgs cfg = spec_same_cond msgs cfg := by
  rw [same_message_scan, spec_same_cond, any_dedup]

/-- C4: on every non-empty message list the classifier follows the fixed
priority and never fails: DIFFERENT exactly when the spec's DIFFERENT
condition holds; only otherwise is the CONSECUTIVE window scan
consulted; only otherwise SAME exactly when the spec's SAME condition
holds; otherwise NONE. -/
theorem check_user_spam_priority (cfg : SpamConfig) (m : Msg) (ms : List Msg) :
    ∃ consec : Bool,
      consecutive_scan cfg (grouper cfg.consecutive_message_limit.toNat (m :: ms)) =
        Except.ok consec ∧
      check_user_spam (m :: ms) cfg = Except.ok
        (if spec_different_cond m ms cfg then SpamType.DIFFERENT
         else if consec then SpamType.CONSECUTIVE
         else if spec_same_cond (m :: ms) cfg then SpamType.SAME
         else SpamType.NONE) := by
  obtain ⟨b, hb⟩ := consecutive_scan_total cfg
    (grouper cfg.consecutive_message_limit.toNat (m :: ms))
    (grouper_groups_ne_nil cfg.consecutive_message_limit.toNat (m :: ms))
  refine ⟨b, hb, ?_⟩
  have hmain : check_user_spam (m :: ms) cfg =
      (if (((m :: ms).length : Int) > cfg.different_message_limit ∧
          (lastElem m ms).date - m.date < 3600 * cfg.different_message_timeframe) then
        Except.ok SpamType.DIFFERENT
      else if b then Except.ok SpamType.CONSECUTIVE
      else if same_message_scan (m :: ms) cfg then Except.ok SpamType.SAME
      else Except.ok SpamType.NONE) := by
    simp only [check_user_spam, hb]
    split
    · rfl
    · cases b <;> rfl
  rw [hmain, ← same_scan_eq_spec]
  simp only [spec_different_cond, decide_eq_true_eq]
  split
  · rfl
  · cases b with
    | true => rfl
    | false =>
      split
      · rfl
      · split <;> rfl

/-- Modelled from the spec: `user.py` is not part of src/.  Spec section
3: a User has a stable platform id and display name, `roll` in
{-1} ∪ 1..6 (-1 meaning "not rolled"), a `jumbo` flag and a `muted`
flag; `set_roll` and `set_jumbo` assign the respective fields. -/
structure User where
  id : Nat
  name : String
  roll : Int
  jumbo : Bool
  muted : Bool
deriving DecidableEq, Repr

/-- Modelled from the spec: `event.py` is not part of src/.  Spec
section 3: an Event holds attendee and absentee sets, each unique by
user id and mutually disjoint.  The sets hold user ids; the user
records live in `ChatState.users` (Python shares the objects). -/
structure Event where
  attendees : Finset Nat
  absentees : Finset Nat
deriving DecidableEq

/-- Modelled from the spec: `Event.add_attendee` moves the user into
`attendees`, removing them from `absentees` if present (spec section
4.1: the attends-true vote is this single call and must keep the two
sets disjoint). -/
def Event.add_attendee (uid : Nat) (e : Event) : Event :=
  { attendees := insert uid e.attendees, absentees := e.absentees.erase uid }

/-- Modelled from the spec: `Event.add_absentee` adds the user to
`absentees`; the caller (bot.py line 198) removes them from the
attendees separately. -/
def Event.add_absentee (uid : Nat) (e : Event) : Event :=
  { e with absentees := insert uid e.absentees }

/-- Modelled from the spec: `Event.remove_attendee` removes the user
from `attendees` (Python `set.remove`; its KeyError, caught at bot.py
lines 199-201, leaves the set unchanged, exactly as `erase` does). -/
def Event.remove_attendee (uid : Nat) (e : Event) : Event :=
  { e with attendees := e.attendees.erase uid }

/-- chat.py lines 13-16. -/
inductive Keyboard where
  | NONE
  | ATTEND
  | DICE
deriving DecidableEq, Repr

/-- chat.py lines 19-35: the Chat fields the verified claims touch.
The UI callback handles and the adapter handle are modelled as emitted
actions and adapter-outcome parameters instead. -/
structure ChatState where
  id : String
  users : List User
  events : List Event
  current_event : Option Event
  pinned_message_id : Option Nat
  current_keyboard : Keyboard
deriving DecidableEq

/-- Requests the bot issues against the Telegram adapter and the timer
runtime, in call order. -/
inductive Action where
  | sendMessage (chat_id : String) (text : String)
  | muteRequest (user_id : Nat) (seconds : Int) (reason : Option String)
  | unmuteRequest (user_id : Nat)
  | scheduleMuteIfAbsent (user_id : Nat) (delay_seconds : Int)
  | calendarCreate
  | updateAttendUI
  | updateDiceUI
  | answerCallback
deriving DecidableEq, Repr

/-- bot.py lines 131-141, `unmute_user`: promote the member; only a
truthy adapter result sets `muted := false`.  The adapter outcome
(truthy, falsy, or TelegramError) is the `promote` parameter. -/
def unmute_user (promote : Except Unit Bool) (user : User) : User × Bool :=
  match promote with
  | .ok true => ({ user with muted := false }, true)
  | .ok false => (user, false)
  | .error _ => (user, false)

/-- Python object identity: the invoking user record is shared with the
entry of `ChatState.users` that has the same id, so writing the record
back updates that entry. -/
def ChatState.updUser (c : ChatState) (u : User) : ChatState :=
  { c with users := c.users.map fun v => if v.id = u.id then u else v }

/-- The ASCII apostrophe, kept out of string literals. -/
def apos : String := String.singleton (Char.ofNat 39)

/-- bot.py line 189. -/
def unattend_reject_text (name : String) : String :=
  "You (" ++ name ++ ") can" ++ apos ++ "t unattend after adding your roll."

/-- bot.py line 232. -/
def dice_reject_text (name : String) : String :=
  "You (" ++ name ++ ") are not attending this event, you can" ++ apos ++
    "t roll a dice yet."

/-- bot.py lines 212-216: the voting-complete check, evaluated after
the vote has been recorded in the current event `e`. -/
def voting_complete_actions (c : ChatState) (e : Event) (user : User) : List Action :=
  let user_has_voted_already := user.id ∈ e.attendees ∨ user.id ∈ e.absentees
  if user_has_voted_already then []
  else
    let vote_count := e.attendees.card + e.absentees.card
    if c.users.length = vote_count ∧ vote_count > 1 then
      [Action.sendMessage c.id "Alle haben abgestimmt."]
    else []

/-- bot.py lines 167-218, `handle_attend_callback`.  `promote` is the
adapter outcome of the inner `unmute_user` call; reading attendees of a
missing `current_event` is Python AttributeError, modelled as `.error`.
Returns the new chat state, the updated invoking-user record, the
emitted adapter/timer requests in call order, and the handler's boolean
result. -/
def handle_attend_callback (promote : Except Unit Bool) (c : ChatState)
    (user : User) (data : String) :
    Except String (ChatState × User × List Action × Bool) :=
  match c.current_event with
  | none => .error "AttributeError"
  | some e =>
    let attends := data == "attend_True"
    if attends then
      let e2 := e.add_attendee user.id
      let u2 := (unmute_user promote user).1
      let c2 := ({ c with current_event := some e2 } : ChatState).updUser u2
      .ok (c2, u2,
        [Action.calendarCreate, Action.unmuteRequest user.id, Action.updateAttendUI] ++
          voting_complete_actions c2 e2 u2,
        true)
    else
      if user.id ∈ e.attendees ∧ user.roll ≠ -1 then
        .ok (c, user, [Action.sendMessage c.id (unattend_reject_text user.name)], false)
      else
        let e2 := (e.add_absentee user.id).remove_attendee user.id
        let c2 := { c with current_event := some e2 }
        let diceActs :=
          if c.current_keyboard = Keyboard.DICE then [Action.updateDiceUI] else []
        .ok (c2, user,
          [Action.scheduleMuteIfAbsent user.id (15 * 60)] ++ diceActs ++
            [Action.updateAttendUI] ++ voting_complete_actions c2 e2 user,
          true)

/-- bot.py lines 220-245, `handle_dice_callback`.  `data` is the raw
callback payload; data not matching "dice_(.*)" is the AttributeError
of `re.match(...).groups()`.  Rolls and jumbo are written to the
attendee object, i.e. to the `users` entry with the invoking user's
id. -/
def handle_dice_callback (c : ChatState) (user : User) (data : String) :
    Except String (ChatState × List Action) :=
  match c.current_event with
  | none => .error "AttributeError"
  | some e =>
    if user.id ∈ e.attendees then
      if data.startsWith "dice_" then
        let payload := data.drop 5
        let upd : User → User :=
          if ["1", "2", "3", "4", "5", "6"].contains payload then
            fun u => { u with roll := (payload.toNat?.getD 0 : Int) }
          else
            fun u => { u with jumbo := payload == "+1" }
        let c2 := { c with users := c.users.map fun v => if v.id = user.id then upd v else v }
        .ok (c2, [Action.updateDiceUI])
      else
        .error "AttributeError"
    else
      .ok (c, [Action.sendMessage c.id (dice_reject_text user.name), Action.answerCallback])

/-- chat.py lines 239-255, the roll aggregation inside
`_build_dice_message`: keep the attendees that have a roll, sort them
by lowercase name, and (after the source's redundant second filter) map
each to `roll + 1` when jumbo else `roll`; the message then reports
`sum rolls` euro plus `len rolls` euro tip. -/
def build_dice_rolls (attendees : List User) : List Int :=
  let withRoll := attendees.filter fun a => a.roll != -1
  let sortedAttendees := withRoll.mergeSort fun a b =>
    decide (a.name.toLower ≤ b.name.toLower)
  (sortedAttendees.filter fun a => a.roll != -1).map fun a =>
    if a.jumbo then a.roll + 1 else a.roll + 0

/-- chat.py lines 116-120, `close_current_event`: append the current
event (if any) to the history, then clear it. -/
def close_current_event (c : ChatState) : ChatState :=
  { c with
    events := match c.current_event with
      | some e => c.events ++ [e]
      | none => c.events,
    current_event := none }

/-- chat.py lines 99-114, `unpin_message`: only a truthy adapter result
clears `pinned_message_id` (and returns true); a falsy result or a
TelegramError (caught, line 105) leaves it unchanged and returns
false. -/
def unpin_message (adapter : Except Unit Bool) (c : ChatState) : ChatState × Bool :=
  let successful_unpin := match adapter with
    | .ok b => b
    | .error _ => false
  if successful_unpin then ({ c with pinned_message_id := none }, true)
  else (c, false)

/-- chat.py lines 77-97, `pin_message`: with `unpin := true` the
current pin is first removed via `unpin_message`; afterwards only a
truthy pin-adapter result stores the new message id (and returns true),
while a falsy result or TelegramError returns false. -/
def pin_message (unpinAdapter pinAdapter : Except Unit Bool) (message_id : Nat)
    (unpin : Bool) (c : ChatState) : ChatState × Bool :=
  let c0 := if unpin then (unpin_message unpinAdapter c).1 else c
  let successful_pin := match pinAdapter with
    | .ok b => b
    | .error _ => false
  if successful_pin then ({ c0 with pinned_message_id := some message_id }, true)
  else (c0, false)

/-- chat.py lines 356-364, `reset`: close the current event, re-render
the attend and dice surfaces (UI actions), unpin, set the keyboard mode
to NONE, and clear every known user's roll and jumbo fields. -/
def chat_reset (unpinAdapter : Except Unit Bool) (c : ChatState) :
    ChatState × List Action :=
  let c1 := close_current_event c
  let c2 := (unpin_message unpinAdapter c1).1
  let c3 := { c2 with
    current_keyboard := Keyboard.NONE,
    users := c2.users.map fun u => { u with roll := -1, jumbo := false } }
  (c3, [Action.updateAttendUI, Action.updateDiceUI])

/-- bot.py lines 34-43: the orchestrator state the registrar claims
use. -/
structure BotState where
  main_id : Option String
deriving DecidableEq, Repr

/-- Python truthiness of `self.state.get("main_id", "")` (bot.py line
86): both a missing value and the empty string are falsy. -/
def main_id_truthy (m : Option String) : Bool := !(m.getD "" == "")

/-- bot.py lines 80-102, `register_main`: if `main_id` is not set,
store the invoking chat's id; if the invoking chat already is the main
chat, reject and request a 2-hour mute of the invoking user; otherwise
reject.  Returns the new state, the reply text, and the emitted
requests. -/
def register_main (b : BotState) (chat_id : String) (user : User) :
    BotState × String × List Action :=
  if main_id_truthy b.main_id = false then
    ({ b with main_id := some chat_id },
      "You have been registered as the main chat.", [])
  else if chat_id == b.main_id.getD "" then
    (b, "You are the main chat already.",
      [Action.muteRequest user.id (2 * 3600)
        (some "Tried to register this chat (which is the main chat) as the main chat")])
  else
    (b, "You can" ++ apos ++ "t register as the main chat, since there already is one.",
      [])

/-- bot.py lines 104-109, `unregister_main`. -/
def unregister_main (b : BotState) : BotState := { b with main_id := none }

/-- An event with user 1 attending, used by several concrete
instantiations. -/
def c3event : Event := { attendees := {1}, absentees := ∅ }

/-- A one-user chat whose user 1 attends and has rolled 3. -/
def user1 : User := ⟨1, "alice", 3, false, false⟩

/-- A user who has not voted on the current event. -/
def user2 : User := ⟨2, "bob", -1, false, false⟩

/-- A chat holding `user1` with current event `c3event`. -/
def c3chat : ChatState :=
  { id := "c3", users := [user1], events := [], current_event := some c3event,
    pinned_message_id := none, current_keyboard := Keyboard.ATTEND }

/-- C3: both validation rejections leave all attendance/roll state
unchanged and are reported to the invoking user: (1) an attend vote
with attends=false by an attendee whose roll is set is rejected with an
explanatory message and the chat state — hence the user's attendee
membership and roll — is returned unchanged; (2) a dice callback by a
user who is not an attendee of the current event is rejected with an
explanatory message and the chat state — hence every roll and jumbo
field — is returned unchanged. -/
theorem validation_rejections_preserve_state :
    (∀ (promote : Except Unit Bool) (c : ChatState) (e : Event) (user : User) (data : String),
      c.current_event = some e → user.id ∈ e.attendees → user.roll ≠ -1 →
      data ≠ "attend_True" →
      handle_attend_callback promote c user data =
        Except.ok (c, user, [Action.sendMessage c.id (unattend_reject_text user.name)], false))
    ∧ (∀ (c : ChatState) (e : Event) (user : User) (data : String),
      c.current_event = some e → user.id ∉ e.attendees →
      handle_dice_callback c user data =
        Except.ok (c, [Action.sendMessage c.id (dice_reject_text user.name),
          Action.answerCallback])) := by
  constructor
  · intro promote c e user data hce hmem hroll hdata
    have hb : (data == "attend_True") = false := by simp [hdata]
    simp only [handle_attend_callback, hce, hb, Bool.false_eq_true, if_false]
    rw [if_pos ⟨hmem, hroll⟩]
  · intro c e user data hce hmem
    simp only [handle_dice_callback, hce]
    rw [if_neg hmem]

/-- C3 witness: both rejections at concrete inputs. -/
theorem validation_rejections_preserve_state_witness :
    (c3chat.current_event = some c3event ∧ user1.id ∈ c3event.attendees ∧
      user1.roll ≠ -1 ∧ "attend_False" ≠ "attend_True" ∧
      handle_attend_callback (Except.ok true) c3chat user1 "attend_False" =
        Except.ok (c3chat, user1,
          [Action.sendMessage c3chat.id (unattend_reject_text user1.name)], false))
    ∧ (user2.id ∉ c3event.attendees ∧
      handle_dice_callback c3chat user2 "dice_3" =
        Except.ok (c3chat, [Action.sendMessage c3chat.id (dice_reject_text user2.name),
          Action.answerCallback])) :=
  ⟨⟨rfl, by decide, by decide, by decide,
    validation_rejections_preserve_state.1 (Except.ok true) c3chat c3event user1
      "attend_False" rfl (by decide) (by decide) (by decide)⟩,
   ⟨by decide,
    validation_rejections_preserve_state.2 c3chat c3event user2 "dice_3" rfl (by decide)⟩⟩

lemma voting_complete_actions_shape (c : ChatState) (e : Event) (u : User) :
    ∀ a ∈ voting_complete_actions c e u, ∃ t, a = Action.sendMessage c.id t := by
  intro a ha
  simp only [voting_complete_actions] at ha
  split at ha
  · simp at ha
  · split at ha
    · exact ⟨_, List.mem_singleton.mp ha⟩
    · simp at ha

/-- C9: every attend vote with attends=true triggers an unmute
(promote) request for the voting user, and the user's muted flag is set
to false exactly when the promote call returns success (it is left
unchanged otherwise); no attend vote with attends=false triggers an
unmute request. -/
theorem attend_vote_unmute_behaviour :
    (∀ (promote : Except Unit Bool) (c : ChatState) (e : Event) (user : User),
      c.current_event = some e →
      ∃ c2 u2 acts, handle_attend_callback promote c user "attend_True" =
          Except.ok (c2, u2, acts, true)
        ∧ Action.unmuteRequest user.id ∈ acts
        ∧ (promote = Except.ok true → u2.muted = false)
        ∧ (promote ≠ Except.ok true → u2.muted = user.muted))
    ∧ (∀ (promote : Except Unit Bool) (c : ChatState) (user : User) (data : String)
        (c2 : ChatState) (u2 : User) (acts : List Action) (r : Bool),
      data ≠ "attend_True" →
      handle_attend_callback promote c user data = Except.ok (c2, u2, acts, r) →
      ∀ uid, Action.unmuteRequest uid ∉ acts) := by
  constructor
  · intro promote c e user hce
    refine ⟨_, _, _, by simp only [handle_attend_callback, hce]; rfl, by simp, ?_, ?_⟩
    · intro hp
      subst hp
      rfl
    · intro hp
      rcases promote with pu | pb
      · rfl
      · cases pb
        · rfl
        · exact absurd rfl hp
  · intro promote c user data c2 u2 acts r hdata heq uid
    have hb : (data == "attend_True") = false := by simp [hdata]
    rcases hce : c.current_event with _ | e
    · rw [handle_attend_callback, hce] at heq
      exact absurd heq (by simp)
    · simp only [handle_attend_callback, hce, hb, Bool.false_eq_true, if_false] at heq
      split at heq
      · simp only [Except.ok.injEq, Prod.mk.injEq] at heq
        obtain ⟨-, -, hacts, -⟩ := heq
        intro hmem
        rw [← hacts] at hmem
        simp at hmem
      · simp only [Except.ok.injEq, Prod.mk.injEq] at heq
        obtain ⟨-, -, hacts, -⟩ := heq
        intro hmem
        rw [← hacts] at hmem
        simp only [List.mem_append, List.mem_singleton] at hmem
        rcases hmem with ((h | h) | h) | h
        · exact Action.noConfusion h
        · split at h
          · exact Action.noConfusion (List.mem_singleton.mp h)
          · simp at h
        · exact Action.noConfusion h
        · obtain ⟨t, ht⟩ := voting_complete_actions_shape _ _ _ _ h
          exact Action.noConfusion ht

/-- C9 witness: a concrete attend-true vote (promote succeeds) and a
concrete attend-false vote. -/
theorem attend_vote_unmute_behaviour_witness :
    (c3chat.current_event = some c3event ∧
      (∃ c2 u2 acts, handle_attend_callback (Except.ok true) c3chat user2 "attend_True" =
          Except.ok (c2, u2, acts, true)
        ∧ Action.unmuteRequest user2.id ∈ acts
        ∧ (Except.ok true = (Except.ok true : Except Unit Bool) → u2.muted = false)
        ∧ ((Except.ok true : Except Unit Bool) ≠ Except.ok true → u2.muted = user2.muted)))
    ∧ ("attend_False" ≠ "attend_True" ∧
      (∃ c2 u2 acts r, handle_attend_callback (Except.ok true) c3chat user2 "attend_False" =
          Except.ok (c2, u2, acts, r)
        ∧ ∀ uid, Action.unmuteRequest uid ∉ acts)) :=
  ⟨⟨rfl, attend_vote_unmute_behaviour.1 (Except.ok true) c3chat c3event user2 rfl⟩,
   ⟨by decide, ⟨_, _, _, _, rfl,
    fun uid => attend_vote_unmute_behaviour.2 (Except.ok true) c3chat user2 "attend_False"
      _ _ _ _ (by decide) rfl uid⟩⟩⟩

/-- The C1 failing scenario: a two-user chat in which user 1 has
already voted attend and user 2 has not voted yet; user 2's vote is the
last missing one. -/
def c1_chat : ChatState :=
  { id := "main", users := [⟨1, "alice", -1, false, false⟩, user2], events := [],
    current_event := some c3event, pinned_message_id := none,
    current_keyboard := Keyboard.ATTEND }

/-- C1 (code bug): when the last not-yet-voted user of a two-user chat
casts their attend vote, afterwards all known users have voted and the
claimed trigger condition (attendee+absentee count = user count > 1)
holds, yet the handler emits no voting-complete notification: the guard
`not user_has_voted_already` (bot.py line 213) is evaluated after the
vote was recorded, so it can never be true. -/
theorem voting_complete_never_fires :
    ∃ c2 u2 acts, handle_attend_callback (Except.ok true) c1_chat user2 "attend_True" =
        Except.ok (c2, u2, acts, true)
      ∧ (∃ e2, c2.current_event = some e2 ∧
          e2.attendees.card + e2.absentees.card = c2.users.length ∧ 1 < c2.users.length)
      ∧ Action.sendMessage c1_chat.id "Alle haben abgestimmt." ∉ acts := by
  refine ⟨_, _, _, rfl, ⟨_, rfl, by decide, by decide⟩, by decide⟩

/-- C6: the registrar.  With `main_id` unset (falsy), `register_main`
stores the invoking chat's id.  With `main_id` set and a different
invoking chat, it leaves the state unchanged, replies with a rejection
and requests nothing.  With `main_id` set to the invoking chat, it
leaves the state unchanged, replies with a rejection and requests a
2-hour mute of the invoking user.  `unregister_main`, the only other
writer of `main_id`, only ever clears it. -/
theorem register_main_cases :
    (∀ (b : BotState) (cid : String) (user : User),
      main_id_truthy b.main_id = false →
      (register_main b cid user).1.main_id = some cid ∧
        (register_main b cid user).2.2 = [])
    ∧ (∀ (b : BotState) (cid : String) (user : User),
      main_id_truthy b.main_id = true → cid ≠ b.main_id.getD "" →
      (register_main b cid user).1 = b ∧
        (register_main b cid user).2.1 =
          "You can" ++ apos ++ "t register as the main chat, since there already is one." ∧
        (register_main b cid user).2.2 = [])
    ∧ (∀ (b : BotState) (cid : String) (user : User),
      main_id_truthy b.main_id = true → cid = b.main_id.getD "" →
      (register_main b cid user).1 = b ∧
        (register_main b cid user).2.1 = "You are the main chat already." ∧
        (register_main b cid user).2.2 =
          [Action.muteRequest user.id (2 * 3600)
            (some "Tried to register this chat (which is the main chat) as the main chat")])
    ∧ (∀ b : BotState, (unregister_main b).main_id = none) := by
  refine ⟨?_, ?_, ?_, fun b => rfl⟩
  · intro b cid user h
    rw [register_main, if_pos h]
    exact ⟨rfl, rfl⟩
  · intro b cid user h hne
    have hbeq : (cid == b.main_id.getD "") = false := by simp [hne]
    rw [register_main, if_neg (by simp [h]), if_neg (by simp [hbeq])]
    exact ⟨rfl, rfl, rfl⟩
  · intro b cid user h heq
    have hbeq : (cid == b.main_id.getD "") = true := by simp [heq]
    rw [register_main, if_neg (by simp [h]), if_pos hbeq]
    exact ⟨rfl, rfl, rfl⟩

/-- C6 witness: the three register cases and one unregister, at
concrete states. -/
theorem register_main_cases_witness :
    (main_id_truthy (BotState.mk none).main_id = false ∧
      (register_main ⟨none⟩ "chatA" user1).1.main_id = some "chatA")
    ∧ (main_id_truthy (BotState.mk (some "chatA")).main_id = true ∧
      "chatB" ≠ (some "chatA").getD "" ∧
      (register_main ⟨some "chatA"⟩ "chatB" user1).1 = ⟨some "chatA"⟩ ∧
      (register_main ⟨some "chatA"⟩ "chatB" user1).2.2 = [])
    ∧ (main_id_truthy (BotState.mk (some "chatA")).main_id = true ∧
      "chatA" = (some "chatA").getD "" ∧
      (register_main ⟨some "chatA"⟩ "chatA" user1).1 = ⟨some "chatA"⟩ ∧
      (register_main ⟨some "chatA"⟩ "chatA" user1).2.2 =
        [Action.muteRequest user1.id (2 * 3600)
          (some "Tried to register this chat (which is the main chat) as the main chat")])
    ∧ (unregister_main ⟨some "chatA"⟩).main_id = none :=
  ⟨⟨by decide, (register_main_cases.1 ⟨none⟩ "chatA" user1 (by decide)).1⟩,
   ⟨by decide, by decide,
    (register_main_cases.2.1 ⟨some "chatA"⟩ "chatB" user1 (by decide) (by decide)).1,
    (register_main_cases.2.1 ⟨some "chatA"⟩ "chatB" user1 (by decide) (by decide)).2.2⟩,
   ⟨by decide, by decide,
    (register_main_cases.2.2.1 ⟨some "chatA"⟩ "chatA" user1 (by decide) (by decide)).1,
    (register_main_cases.2.2.1 ⟨some "chatA"⟩ "chatA" user1 (by decide) (by decide)).2.2⟩,
   register_main_cases.2.2.2 ⟨some "chatA"⟩⟩

/-- C7: for every attendee list, the aggregated roll total equals the
sum over attendees with roll different from -1 of (roll + 1 if jumbo
else roll), and the tip total equals the number of such contributing
attendees; in particular the spec's example rolls
[(3,false),(5,true),(-1,false)] give total 9 and tip count 2. -/
theorem dice_roll_aggregation :
    (∀ attendees : List User,
      (build_dice_rolls attendees).sum =
        ((attendees.filter fun a => a.roll != -1).map fun a =>
          if a.jumbo then a.roll + 1 else a.roll).sum
      ∧ (build_dice_rolls attendees).length =
        (attendees.filter fun a => a.roll != -1).length)
    ∧ (build_dice_rolls [⟨1, "a", 3, false, false⟩, ⟨2, "b", 5, true, false⟩,
        ⟨3, "c", -1, false, false⟩]).sum = 9
    ∧ (build_dice_rolls [⟨1, "a", 3, false, false⟩, ⟨2, "b", 5, true, false⟩,
        ⟨3, "c", -1, false, false⟩]).length = 2 := by
  have gen : ∀ attendees : List User,
      (build_dice_rolls attendees).sum =
        ((attendees.filter fun a => a.roll != -1).map fun a =>
          if a.jumbo then a.roll + 1 else a.roll).sum
      ∧ (build_dice_rolls attendees).length =
        (attendees.filter fun a => a.roll != -1).length := by
    intro attendees
    have hperm : List.Perm ((attendees.filter fun a => a.roll != -1).mergeSort fun a b =>
        decide (a.name.toLower ≤ b.name.toLower)) (attendees.filter fun a => a.roll != -1) :=
      List.mergeSort_perm _ _
    have hperm2 : List.Perm (((attendees.filter fun a => a.roll != -1).mergeSort fun a b =>
        decide (a.name.toLower ≤ b.name.toLower)).filter fun a => a.roll != -1)
        (attendees.filter fun a => a.roll != -1) := by
      have h1 := hperm.filter fun a => a.roll != -1
      rwa [List.filter_filter, show (fun a : User => a.roll != -1 && (a.roll != -1)) =
        fun a : User => a.roll != -1 from funext fun a => Bool.and_self _] at h1
    simp only [build_dice_rolls, add_zero]
    exact ⟨(hperm2.map _).sum_eq, by rw [List.length_map, hperm2.length_eq]⟩
  refine ⟨gen, ?_, ?_⟩
  · rw [(gen _).1]
    decide
  · rw [(gen _).2]
    decide

/-- C8: after `reset`, the prior current event is appended at the end
of the event history where (if not previously present, which the
program's append-then-clear discipline guarantees) it appears exactly
once, `current_event` is cleared, the keyboard mode is NONE, every
known user's roll is -1 and jumbo is false, and no user's muted flag
changed. -/
theorem reset_postconditions (adapter : Except Unit Bool) (c : ChatState) (e : Event)
    (hce : c.current_event = some e) (hfresh : e ∉ c.events) :
    (chat_reset adapter c).1.events = c.events ++ [e]
    ∧ (chat_reset adapter c).1.events.count e = 1
    ∧ (chat_reset adapter c).1.current_event = none
    ∧ (chat_reset adapter c).1.current_keyboard = Keyboard.NONE
    ∧ (∀ u ∈ (chat_reset adapter c).1.users, u.roll = -1 ∧ u.jumbo = false)
    ∧ (chat_reset adapter c).1.users.map User.muted = c.users.map User.muted := by
  have hfields : (chat_reset adapter c).1.events = c.events ++ [e]
      ∧ (chat_reset adapter c).1.current_event = none
      ∧ (chat_reset adapter c).1.current_keyboard = Keyboard.NONE
      ∧ (chat_reset adapter c).1.users =
          c.users.map fun u => { u with roll := -1, jumbo := false } := by
    rcases adapter with pu | pb
    · simp [chat_reset, close_current_event, unpin_message, hce]
    · cases pb <;> simp [chat_reset, close_current_event, unpin_message, hce]
  obtain ⟨h1, h2, h3, h4⟩ := hfields
  refine ⟨h1, ?_, h2, h3, ?_, ?_⟩
  · rw [h1, List.count_append, List.count_eq_zero.mpr hfresh]
    simp
  · intro u hu
    rw [h4] at hu
    obtain ⟨v, _, rfl⟩ := List.mem_map.mp hu
    exact ⟨rfl, rfl⟩
  · rw [h4, List.map_map]
    exact List.map_congr_left fun u _ => rfl

/-- C8 witness: reset of the concrete chat `c3chat`. -/
theorem reset_postconditions_witness :
    (c3chat.current_event = some c3event ∧ c3event ∉ c3chat.events)
    ∧ (chat_reset (Except.ok true) c3chat).1.events = c3chat.events ++ [c3event]
    ∧ (chat_reset (Except.ok true) c3chat).1.events.count c3event = 1
    ∧ (chat_reset (Except.ok true) c3chat).1.current_event = none
    ∧ (chat_reset (Except.ok true) c3chat).1.current_keyboard = Keyboard.NONE
    ∧ (∀ u ∈ (chat_reset (Except.ok true) c3chat).1.users, u.roll = -1 ∧ u.jumbo = false)
    ∧ (chat_reset (Except.ok true) c3chat).1.users.map User.muted =
        c3chat.users.map User.muted :=
  ⟨⟨rfl, by decide⟩, reset_postconditions (Except.ok true) c3chat c3event rfl (by decide)⟩

/-- A chat with a pinned message, for the pin/unpin claims. -/
def c10_chat : ChatState :=
  { id := "pin", users := [], events := [], current_event := none,
    pinned_message_id := some 5, current_keyboard := Keyboard.NONE }

/-- C10 counterexample: with message 5 pinned, `pin_message` called
with unpin=true whose inner unpin succeeds and whose pin call then
fails returns false and yet `pinned_message_id` has changed (the inner
unpin cleared it), refuting the claim that on any adapter failure both
operations leave `pinned_message_id` unchanged. -/
theorem pin_message_failure_changes_pin :
    (pin_message (Except.ok true) (Except.error ()) 7 true c10_chat).2 = false
    ∧ (pin_message (Except.ok true) (Except.error ()) 7 true c10_chat).1.pinned_message_id
        = none
    ∧ c10_chat.pinned_message_id = some 5 :=
  ⟨rfl, rfl, rfl⟩

/-- Python truthiness of the adapter call results that `pin_message`
and `unpin_message` branch on (a raised TelegramError counts as
falsy because the flag keeps its initial False). -/
def adapter_truthy (r : Except Unit Bool) : Bool :=
  match r with
  | .ok b => b
  | .error _ => false

/-- C10 (amended): `pin_message` stores the new message id and returns
true exactly when the pin adapter call is truthy; `unpin_message`
clears `pinned_message_id` and returns true exactly when the unpin
adapter call is truthy; on a falsy or failing adapter call each returns
false and leaves `pinned_message_id` unchanged — except that
`pin_message` invoked with unpin=true first runs `unpin_message`, whose
success clears `pinned_message_id` even when the subsequent pin call
fails. -/
theorem pin_unpin_adapter_success (unpinAdapter pinAdapter : Except Unit Bool)
    (mid : Nat) (c : ChatState) :
    (adapter_truthy pinAdapter = true →
      ∀ unpin, (pin_message unpinAdapter pinAdapter mid unpin c).1.pinned_message_id =
          some mid
        ∧ (pin_message unpinAdapter pinAdapter mid unpin c).2 = true)
    ∧ (adapter_truthy pinAdapter = false →
      pin_message unpinAdapter pinAdapter mid false c = (c, false)
      ∧ pin_message unpinAdapter pinAdapter mid true c =
          ((unpin_message unpinAdapter c).1, false))
    ∧ (adapter_truthy unpinAdapter = true →
      unpin_message unpinAdapter c = ({ c with pinned_message_id := none }, true))
    ∧ (adapter_truthy unpinAdapter = false →
      unpin_message unpinAdapter c = (c, false)) := by
  refine ⟨?_, ?_, ?_, ?_⟩
  · intro h unpin
    rcases pinAdapter with pu | pb
    · exact absurd h (by simp [adapter_truthy])
    · cases pb
      · exact absurd h (by simp [adapter_truthy])
      · exact ⟨rfl, rfl⟩
  · intro h
    rcases pinAdapter with pu | pb
    · exact ⟨rfl, rfl⟩
    · cases pb
      · exact ⟨rfl, rfl⟩
      · exact absurd h (by simp [adapter_truthy])
  · intro h
    rcases unpinAdapter with uu | ub
    · exact absurd h (by simp [adapter_truthy])
    · cases ub
      · exact absurd h (by simp [adapter_truthy])
      · rfl
  · intro h
    rcases unpinAdapter with uu | ub
    · rfl
    · cases ub
      · rfl
      · exact absurd h (by simp [adapter_truthy])

/-- C10 amended-claim witness: each adapter outcome at a concrete
chat. -/
theorem pin_unpin_adapter_success_witness :
    (adapter_truthy (Except.ok true) = true ∧
      (pin_message (Except.ok false) (Except.ok true) 9 false c10_chat).1.pinned_message_id =
        some 9)
    ∧ (adapter_truthy (Except.error () : Except Unit Bool) = false ∧
      pin_message (Except.ok false) (Except.error ()) 9 false c10_chat = (c10_chat, false))
    ∧ (adapter_truthy (Except.ok true) = true ∧
      unpin_message (Except.ok true) c10_chat =
        ({ c10_chat with pinned_message_id := none }, true))
    ∧ (adapter_truthy (Except.ok false) = false ∧
      unpin_message (Except.ok false) c10_chat = (c10_chat, false)) :=
  ⟨⟨rfl, ((pin_unpin_adapter_success (Except.ok false) (Except.ok true) 9 c10_chat).1
      rfl false).1⟩,
   ⟨rfl, ((pin_unpin_adapter_success (Except.ok false) (Except.error ()) 9 c10_chat).2.1
      rfl).1⟩,
   ⟨rfl, (pin_unpin_adapter_success (Except.ok true) (Except.ok false) 9 c10_chat).2.2.1
      rfl⟩,
   ⟨rfl, (pin_unpin_adapter_success (Except.ok false) (Except.ok false) 9 c10_chat).2.2.2
      rfl⟩⟩

end DicersBot
